import Mathlib

/-!
Verification of the bk-light display orchestrator and Home Assistant client.

Shallow embedding of `scripts/watch_ha_media_or_clock.py` and
`bk_light/home_assistant.py`:
  * pure helpers (`get_clock_index`, sprite cropping) become Lean functions
    over `Nat`/`Int`;
  * the orchestrator (`run_watch` and its inner coroutines `send_cover`,
    `send_clock`, `refresh_by_state`, the event loop and the idle clock loop)
    becomes explicit state passing over a `RenderState` record, with the
    external world (HTTP fetches, image decoding, the display sink, the
    wall clock) supplied as step inputs; a Python exception becomes the
    `Except.error` branch carrying the state at raise time;
  * the WebSocket client handshake and the reconnect supervisor become
    functions over the list of server messages / connection epochs.

Timestamps are rationals (values of `time.monotonic()`); image byte strings
are `List Nat`; the SHA-256 fingerprint is an abstract function supplied in
the configuration record, since the claims only use equality of digests.
-/

namespace BkLight

/-- Sprite-sheet constants, `watch_ha_media_or_clock.py` lines 28-30:
`SPRITE_SIZE = 16`, `SPRITES_PER_ROW = 8`, `SPRITE_COUNT = 64`. -/
def SPRITE_SIZE : Nat := 16

/-- Sprites per row of the sheet (8). -/
def SPRITES_PER_ROW : Nat := 8

/-- Total number of clock sprites (64). -/
def SPRITE_COUNT : Nat := 64

/-- Embedding of `get_clock_index` (lines 45-48): `total_minutes` is
`now.hour * 60 + now.minute`; the code computes
`int((total_minutes + 720) % 1440 / 1440 * SPRITE_COUNT)` in floating point.
For every `normalized < 1440` the float expression `normalized / 1440 * 64`
truncates to exactly `normalized * 64 / 1440` (the quotient is either exactly
representable, when `normalized` is a multiple of 45, or far enough from an
integer that the relative rounding error cannot cross it), so the embedding
uses exact natural floor division. -/
def get_clock_index (total_minutes : Nat) : Nat :=
  (total_minutes + 720) % 1440 * SPRITE_COUNT / 1440

/-- Embedding of the crop rectangle computed by `render_minecraft_clock_sprite`
(lines 51-55): the index is clamped by `max(0, min(SPRITE_COUNT - 1, int(index)))`
and the box `(left, top, left + SPRITE_SIZE, top + SPRITE_SIZE)` is handed to
`Image.crop`. -/
def render_minecraft_clock_sprite_box (index : Int) : Int × Int × Int × Int :=
  let idx := max 0 (min ((SPRITE_COUNT : Int) - 1) index)
  let left := idx % (SPRITES_PER_ROW : Int) * (SPRITE_SIZE : Int)
  let top := idx / (SPRITES_PER_ROW : Int) * (SPRITE_SIZE : Int)
  (left, top, left + (SPRITE_SIZE : Int), top + (SPRITE_SIZE : Int))

/-- Minimum sprite-sheet width validated by `run_watch` (line 119):
`min_w = SPRITE_SIZE * SPRITES_PER_ROW`. -/
def sprite_sheet_min_width : Nat := SPRITE_SIZE * SPRITES_PER_ROW

/-- Minimum sprite-sheet height validated by `run_watch` (line 120):
`min_h = SPRITE_SIZE * (SPRITE_COUNT // SPRITES_PER_ROW)`. -/
def sprite_sheet_min_height : Nat := SPRITE_SIZE * (SPRITE_COUNT / SPRITES_PER_ROW)

/-- C10: `render_minecraft_clock_sprite` clamps every integer index into
`[0, 63]` before computing the crop rectangle, so for every `Int` input the
crop box `(left, top, left + 16, top + 16)` lies within the validated minimum
sprite-sheet bounds of 128 × 128 pixels: the box is never out of range, even
for negative or oversized indices. -/
theorem render_minecraft_clock_sprite_box_in_bounds (index : Int) :
    0 ≤ (render_minecraft_clock_sprite_box index).1 ∧
    0 ≤ (render_minecraft_clock_sprite_box index).2.1 ∧
    (render_minecraft_clock_sprite_box index).2.2.1 ≤ (sprite_sheet_min_width : Int) ∧
    (render_minecraft_clock_sprite_box index).2.2.2 ≤ (sprite_sheet_min_height : Int) ∧
    (render_minecraft_clock_sprite_box index).2.2.1
      = (render_minecraft_clock_sprite_box index).1 + (SPRITE_SIZE : Int) ∧
    (render_minecraft_clock_sprite_box index).2.2.2
      = (render_minecraft_clock_sprite_box index).2.1 + (SPRITE_SIZE : Int) := by
  dsimp only [render_minecraft_clock_sprite_box, sprite_sheet_min_width, sprite_sheet_min_height,
    SPRITE_SIZE, SPRITES_PER_ROW, SPRITE_COUNT]
  omega

/-- C5 counterexample: `get_clock_index` is not monotonically non-decreasing
over the midnight-to-midnight period `[0, 1440)`: at `m = 719` (11:59) the
index is 63 but at `m = 720` (noon) it drops to 0, although `719 ≤ 720` and
both lie in `[0, 1440)`. -/
theorem get_clock_index_noon_drop :
    get_clock_index 719 = 63 ∧ get_clock_index 720 = 0 ∧
    719 ≤ 720 ∧ 720 < 1440 ∧ get_clock_index 720 < get_clock_index 719 := by
  decide

/-- C5 (amended): `get_clock_index` is a deterministic function of minutes
since local midnight that equals `floor(((m + 720) mod 1440) / 1440 * 64)`,
lies in `[0, 63]`, and is periodic with period 1440; it is monotonically
non-decreasing within each noon-to-noon period `[720 + 1440 k, 2160 + 1440 k)`
(not within the midnight-based period, where it drops from 63 to 0 at noon). -/
theorem get_clock_index_spec :
    (∀ m, get_clock_index m = (m + 720) % 1440 * 64 / 1440) ∧
    (∀ m, get_clock_index m ≤ 63) ∧
    (∀ m, get_clock_index (m + 1440) = get_clock_index m) ∧
    (∀ m1 m2, 720 ≤ m1 → m1 ≤ m2 → m2 < 2160 → get_clock_index m1 ≤ get_clock_index m2) := by
  refine ⟨?_, ?_, ?_, ?_⟩
  · intro m
    simp only [get_clock_index, SPRITE_COUNT]
  · intro m
    simp only [get_clock_index, SPRITE_COUNT]
    omega
  · intro m
    simp only [get_clock_index, SPRITE_COUNT]
    omega
  · intro m1 m2 h1 h2 h3
    simp only [get_clock_index, SPRITE_COUNT]
    omega

/-- C5 witness: the amended properties evaluated at concrete minutes. -/
theorem get_clock_index_spec_witness :
    get_clock_index 100 = (100 + 720) % 1440 * 64 / 1440 ∧
    get_clock_index 100 ≤ 63 ∧
    get_clock_index (100 + 1440) = get_clock_index 100 ∧
    get_clock_index 800 ≤ get_clock_index 900 :=
  ⟨get_clock_index_spec.1 100, get_clock_index_spec.2.1 100,
   get_clock_index_spec.2.2.1 100,
   get_clock_index_spec.2.2.2 800 900 (by decide) (by decide) (by decide)⟩

/-- Raw picture bytes returned by `ha_fetch_entity_picture_bytes`. -/
def Bytes : Type := List Nat

/-- Orchestrator configuration relevant to the claims:
`min_interval = max(0.0, float(args.min_interval))` (`run_watch` line 110) and
the SHA-256 fingerprint function (`hashlib.sha256(img_bytes).hexdigest()`,
line 161), abstracted to an arbitrary digest function since the code only
compares digests for equality. -/
structure WatchConfig where
  min_interval : ℚ
  hash : List Nat → Nat

/-- Mutable orchestrator state captured by the closures of `run_watch`
(lines 137-140): `last_sent_cover_at = 0.0`, `last_cover_hash = None`,
`last_clock_index = None`, `showing_cover = False`. -/
structure RenderState where
  last_sent_cover_at : ℚ
  last_cover_hash : Option Nat
  last_clock_index : Option Nat
  showing_cover : Bool
deriving DecidableEq

/-- Initial orchestrator state (`run_watch` lines 137-140). -/
def initState : RenderState :=
  { last_sent_cover_at := 0, last_cover_hash := none,
    last_clock_index := none, showing_cover := false }

/-- One successful write to the Display Output Sink (`manager.send_image`):
either a cover image identified by its fingerprint, or a clock frame
identified by its sprite index. -/
inductive Render where
  | cover (fingerprint : Nat)
  | clock (index : Nat)
deriving DecidableEq

/-- Environment of one `send_cover` call: `now` is `time.monotonic()` at entry
(line 149), `sendTime` the `time.monotonic()` stored after the send
(line 180); `fetch` is the outcome of `ha_fetch_entity_picture_bytes`
(line 154), `decodeOk` whether `Image.open` / `prepare_image_obj` succeed
(lines 165-176), `sendOk` whether `manager.send_image` succeeds (line 178). -/
structure CoverInput where
  now : ℚ
  sendTime : ℚ
  fetch : Except Unit (List Nat)
  decodeOk : Bool
  sendOk : Bool

/-- Environment of one `send_clock` call: `clock_index` is
`get_clock_index(datetime.now(tz))` (line 187) and `sendOk` whether
`manager.send_image` succeeds (line 204); cropping a validated sprite sheet
does not fail. -/
structure ClockInput where
  clock_index : Nat
  sendOk : Bool

/-- Embedding of `send_cover` (lines 146-182). `Except.error st` models a
Python exception escaping the coroutine with the shared state equal to `st`
at raise time; `Except.ok (st, r)` models a normal return, `r` being the
render written to the sink (if any). The throttle guard is line 151
(`min_interval` is truthy iff nonzero), the fingerprint dedup guard line 162,
and the state update block lines 177-182 runs under `send_lock` only after a
successful `manager.send_image`; the local `current_hash` of line 161 is
inlined as `cfg.hash img_bytes`. -/
def send_cover (cfg : WatchConfig) (st : RenderState) (force : Bool) (ci : CoverInput) :
    Except RenderState (RenderState × Option Render) :=
  if force = false ∧ st.showing_cover = true ∧ cfg.min_interval ≠ 0 ∧
      ci.now - st.last_sent_cover_at < cfg.min_interval then
    .ok (st, none)
  else
    match ci.fetch with
    | .error _ => .error st
    | .ok img_bytes =>
      if force = false ∧ st.showing_cover = true ∧
          st.last_cover_hash = some (cfg.hash img_bytes) then
        .ok (st, none)
      else if ci.decodeOk = false then .error st
      else if ci.sendOk = false then .error st
      else
        .ok ({ last_cover_hash := some (cfg.hash img_bytes),
               last_sent_cover_at := ci.sendTime,
               showing_cover := true,
               last_clock_index := none },
             some (.cover (cfg.hash img_bytes)))

/-- Embedding of `send_clock` (lines 184-206): dedup by frame index equality
(line 188), then render, send, and update `last_clock_index`/`showing_cover`
under `send_lock` (lines 203-206). -/
def send_clock (st : RenderState) (force : Bool) (ki : ClockInput) :
    Except RenderState (RenderState × Option Render) :=
  if force = false ∧ st.last_clock_index = some ki.clock_index then
    .ok (st, none)
  else if ki.sendOk = false then .error st
  else
    .ok ({ st with last_clock_index := some ki.clock_index, showing_cover := false },
         some (.clock ki.clock_index))

/-- Lower-casing as applied by `str.lower()` in `is_playing_state`, written
over the character list (ASCII-equivalent to `String.toLower`). -/
def lowerStr (s : String) : String := String.mk (s.data.map Char.toLower)

/-- Embedding of `is_playing_state` (lines 98-102): the argument is `none`
when the fetched state object is falsy, otherwise `some f` where `f` is the
optional `state` field; classification is case-insensitive equality with
`playing` of `str(state_obj.get("state", "")).lower()`. -/
def is_playing_state (state_obj : Option (Option String)) : Bool :=
  match state_obj with
  | none => false
  | some f => lowerStr (f.getD "") == "playing"

/-- Environment of one `refresh_by_state` call: the outcome of `ha_get_state`
(line 210) together with the inputs of the at most one `send_cover` and at
most one `send_clock` it may perform. -/
structure ResyncInput where
  state_fetch : Except Unit (Option (Option String))
  cov : CoverInput
  clk : ClockInput

/-- Embedding of `refresh_by_state` (lines 208-229): a state-fetch failure is
caught and degrades to `send_clock(force=False)`; a playing state attempts
`send_cover(force=force_cover or not showing_cover)` and catches its failure
with `send_clock(force=not showing_cover)`; a non-playing state runs
`send_clock(force=showing_cover)`. Exceptions of the fallback `send_clock`
itself are not caught and escape as `Except.error`. -/
def refresh_by_state (cfg : WatchConfig) (st : RenderState) (force_cover : Bool)
    (ri : ResyncInput) : Except RenderState (RenderState × Option Render) :=
  match ri.state_fetch with
  | .error _ => send_clock st false ri.clk
  | .ok state_obj =>
    if is_playing_state state_obj then
      match send_cover cfg st (force_cover || !st.showing_cover) ri.cov with
      | .ok (s, r) => .ok (s, r)
      | .error s => send_clock s (!s.showing_cover) ri.clk
    else
      send_clock st st.showing_cover ri.clk

/-- Environment of one iteration of the event loop body (`run_watch`
lines 244-250): the `new_state` snapshot of the received
`HassStateChangedEvent` (same shape as in `is_playing_state`) and the inputs
of the render call it triggers. -/
structure EventInput where
  new_state : Option (Option String)
  cov : CoverInput
  clk : ClockInput

/-- Embedding of the event-loop body (`run_watch` lines 244-250): a playing
event attempts `send_cover(force=not showing_cover)` and swallows any failure
with only a log line — no clock fallback; a non-playing event runs
`send_clock(force=showing_cover)`, whose failure escapes to the connection
loop. -/
def handle_event (cfg : WatchConfig) (st : RenderState) (ei : EventInput) :
    Except RenderState (RenderState × Option Render) :=
  if is_playing_state ei.new_state then
    match send_cover cfg st (!st.showing_cover) ei.cov with
    | .ok (s, r) => .ok (s, r)
    | .error s => .ok (s, none)
  else
    send_clock st st.showing_cover ei.clk

/-- Embedding of one iteration of `clock_loop` (lines 231-235): the idle
ticker calls `send_clock(force=False)` only while not showing the cover. -/
def clock_tick (st : RenderState) (ki : ClockInput) :
    Except RenderState (RenderState × Option Render) :=
  if st.showing_cover then .ok (st, none)
  else send_clock st false ki

/-- One atomic decision cycle of the orchestrator after startup: a push event
(lines 244-250), an idle clock tick (lines 231-235), or the reconnect
handler's resync `refresh_by_state(force_cover=False)` (line 255). -/
inductive WatchStep where
  | event (ei : EventInput)
  | tick (ki : ClockInput)
  | reconnect (ri : ResyncInput)

/-- Absorbs a raised exception at a step boundary (the connection loop
catches it and carries on; the state at raise time persists, nothing was
rendered by the raising call). -/
def absorb : Except RenderState (RenderState × Option Render) → RenderState × Option Render
  | .ok p => p
  | .error s1 => (s1, none)

/-- Effect of one `WatchStep` on the orchestrator state. -/
def watch_step (cfg : WatchConfig) (st : RenderState) (s : WatchStep) :
    RenderState × Option Render :=
  match s with
  | .event ei => absorb (handle_event cfg st ei)
  | .tick ki => absorb (clock_tick st ki)
  | .reconnect ri => absorb (refresh_by_state cfg st false ri)

/-- Folds a list of decision cycles, collecting the renders written to the
Display Output Sink in order. -/
def run_watch_from (cfg : WatchConfig) (st : RenderState) :
    List WatchStep → RenderState × List Render
  | [] => (st, [])
  | s :: rest =>
    let p := watch_step cfg st s
    let q := run_watch_from cfg p.1 rest
    (q.1, p.2.toList ++ q.2)

/-- Embedding of `run_watch` after setup (lines 237-256): from the initial
state, the startup resync `refresh_by_state(force_cover=True)` (line 239)
runs first — if it raises, `run_watch` itself dies (line 239 is outside the
connection `try`) — and then the decision cycles follow. Returns the final
state and the full render trace. -/
def run_watch (cfg : WatchConfig) (startup : ResyncInput) (steps : List WatchStep) :
    RenderState × List Render :=
  match refresh_by_state cfg initState true startup with
  | .error s => (s, [])
  | .ok (s, r) =>
    let q := run_watch_from cfg s steps
    (q.1, r.toList ++ q.2)

/-- Interleaving model for the shared `RenderState`: an arbitrary completed
`send_cover` or `send_clock` call with arbitrary forced flag and environment.
The guards may be evaluated against stale reads in the real interleaving, but
every state mutation is the atomic block under `send_lock`, which this
operation reproduces exactly. -/
inductive RenderOp where
  | opCover (force : Bool) (ci : CoverInput)
  | opClock (force : Bool) (ki : ClockInput)

/-- Resulting state of one completed render operation (normal return or
exception). -/
def apply_render_op (cfg : WatchConfig) (st : RenderState) : RenderOp → RenderState
  | .opCover force ci =>
    match send_cover cfg st force ci with
    | .ok p => p.1
    | .error s => s
  | .opClock force ki =>
    match send_clock st force ki with
    | .ok p => p.1
    | .error s => s

/-- State reached from `st` by a sequence of completed render operations. -/
def apply_render_ops (cfg : WatchConfig) (st : RenderState) (ops : List RenderOp) :
    RenderState :=
  ops.foldl (apply_render_op cfg) st

/-- Shape of a parsed Home Assistant WebSocket server message as inspected by
`HomeAssistantWS`: `msgType` is `msg.get("type")` (absent modelled as `""`),
`msgId` is `msg.get("id")` (`none` when absent), `msgSuccess` is the
truthiness of `msg.get("success")` (absent or `False` both falsy). -/
structure WsServerMsg where
  msgType : String
  msgId : Option Nat
  msgSuccess : Bool
deriving DecidableEq

/-- Outcome of `HomeAssistantWS.connect` followed by the setup part of
`subscribe_state_changed`: whether `ws.close()` was called, and either a
connection-level failure (`RuntimeError`) or the subscription id with which
the client enters streaming. -/
structure ConnectOutcome where
  closed : Bool
  result : Except Unit Nat

/-- Embedding of `HomeAssistantWS.connect` (lines 93-113) and the setup of
`subscribe_state_changed` (lines 115-126), parameterised by the first three
parsed server messages. A fresh client has `_next_id = 1` (line 86), so the
subscribe correlation id drawn by `self._next()` is 1. The three fatal
checks are: first message not `auth_required` (line 104), auth reply not
`auth_ok` (line 109), and subscribe reply not a `result` with matching id
and truthy `success` (line 124); each closes the socket before raising. -/
def connect_and_subscribe (first authReply subReply : WsServerMsg) : ConnectOutcome :=
  if first.msgType ≠ "auth_required" then { closed := true, result := .error () }
  else if authReply.msgType ≠ "auth_ok" then { closed := true, result := .error () }
  else
    let sub_id := 1
    if subReply.msgType ≠ "result" ∨ subReply.msgId ≠ some sub_id ∨
        subReply.msgSuccess = false then
      { closed := true, result := .error () }
    else { closed := false, result := .ok sub_id }

/-- How one connection epoch of the supervisor ends: the event iterator is
exhausted normally, raises some exception, or raises
`asyncio.CancelledError`. -/
inductive EpochEnd where
  | exhausted
  | failure
  | cancelled
deriving DecidableEq

/-- One connection epoch seen by `watch_state_changes_forever`: the events
yielded by the fresh `subscribe_state_changed` iterator (abstracted to their
payloads) followed by how the iteration ended. -/
structure Epoch where
  events : List Nat
  finish : EpochEnd

/-- Observable action of the supervisor: forwarding an event to `on_event`,
sleeping the reconnect delay, or re-raising the cancellation. -/
inductive SupAction where
  | forward (e : Nat)
  | sleep (d : ℚ)
  | raiseCancelled
deriving DecidableEq

/-- Reconnect delay computed once before the loop
(`delay = max(0.5, float(reconnect_delay_s))`, line 176). -/
def watch_delay (reconnect_delay_s : ℚ) : ℚ := max (1/2) reconnect_delay_s

/-- Embedding of `watch_state_changes_forever` (lines 163-185) over a finite
list of connection epochs: each iteration builds a fresh client and
subscription, forwards every yielded event; a `CancelledError` is re-raised
immediately (no sleep, remaining epochs unreachable); any other exception
sleeps the clamped delay and retries; normal exhaustion retries at once. An
empty or exhausted epoch list leaves the loop still running, awaiting the
next connection. -/
def watch_state_changes_forever (reconnect_delay_s : ℚ) : List Epoch → List SupAction
  | [] => []
  | ep :: rest =>
    let fwd := ep.events.map SupAction.forward
    match ep.finish with
    | .exhausted => fwd ++ watch_state_changes_forever reconnect_delay_s rest
    | .failure =>
        fwd ++ SupAction.sleep (watch_delay reconnect_delay_s)
          :: watch_state_changes_forever reconnect_delay_s rest
    | .cancelled => fwd ++ [SupAction.raiseCancelled]

/-- Exhaustive description of the outcomes of `send_cover`: a skip returning
the state untouched, an exception with the state untouched, or a successful
send with the full state update; a successful non-forced send while in Cover
mode implies the fingerprint changed. -/
theorem send_cover_cases (cfg : WatchConfig) (st : RenderState) (force : Bool)
    (ci : CoverInput) :
    (send_cover cfg st force ci = .ok (st, none) ∧ force = false ∧
      st.showing_cover = true) ∨
    send_cover cfg st force ci = .error st ∨
    ∃ b, ci.fetch = .ok b ∧
      send_cover cfg st force ci =
        .ok ({ last_sent_cover_at := ci.sendTime, last_cover_hash := some (cfg.hash b),
               last_clock_index := none, showing_cover := true },
             some (.cover (cfg.hash b))) ∧
      (force = false → st.showing_cover = true → st.last_cover_hash ≠ some (cfg.hash b)) := by
  rcases hf : ci.fetch with u | b
  · unfold send_cover
    rw [hf]
    by_cases h1 : force = false ∧ st.showing_cover = true ∧ cfg.min_interval ≠ 0 ∧
        ci.now - st.last_sent_cover_at < cfg.min_interval
    · left; exact ⟨by rw [if_pos h1], h1.1, h1.2.1⟩
    · right; left; rw [if_neg h1]
  · unfold send_cover
    rw [hf]
    by_cases h1 : force = false ∧ st.showing_cover = true ∧ cfg.min_interval ≠ 0 ∧
        ci.now - st.last_sent_cover_at < cfg.min_interval
    · left; exact ⟨by rw [if_pos h1], h1.1, h1.2.1⟩
    · rw [if_neg h1]
      dsimp only
      by_cases h2 : force = false ∧ st.showing_cover = true ∧
          st.last_cover_hash = some (cfg.hash b)
      · left; exact ⟨by rw [if_pos h2], h2.1, h2.2.1⟩
      · rw [if_neg h2]
        by_cases h3 : ci.decodeOk = false
        · right; left; rw [if_pos h3]
        · rw [if_neg h3]
          by_cases h4 : ci.sendOk = false
          · right; left; rw [if_pos h4]
          · right; right
            refine ⟨b, rfl, ?_, fun hfo hs hh => h2 ⟨hfo, hs, hh⟩⟩
            rw [if_neg h4]

/-- When fetch, decode and send all succeed, `send_cover` cannot raise. -/
theorem send_cover_no_error (cfg : WatchConfig) (st : RenderState) (force : Bool)
    (ci : CoverInput) (b : List Nat) (hb : ci.fetch = .ok b) (hd : ci.decodeOk = true)
    (hs : ci.sendOk = true) (s : RenderState) :
    send_cover cfg st force ci ≠ .error s := by
  unfold send_cover
  rw [hb]
  by_cases h1 : force = false ∧ st.showing_cover = true ∧ cfg.min_interval ≠ 0 ∧
      ci.now - st.last_sent_cover_at < cfg.min_interval
  · rw [if_pos h1]; intro h; cases h
  · rw [if_neg h1]
    dsimp only
    by_cases h2 : force = false ∧ st.showing_cover = true ∧
        st.last_cover_hash = some (cfg.hash b)
    · rw [if_pos h2]; intro h; cases h
    · rw [if_neg h2, if_neg (by simp [hd]), if_neg (by simp [hs])]
      intro h; cases h

/-- When fetch, decode and send all succeed, `send_cover` either skips
(possible only for a non-forced call while showing the cover) or renders and
enters Cover mode. -/
theorem send_cover_pipeline_ok (cfg : WatchConfig) (st : RenderState) (force : Bool)
    (ci : CoverInput) (b : List Nat) (hb : ci.fetch = .ok b) (hd : ci.decodeOk = true)
    (hs : ci.sendOk = true) :
    (send_cover cfg st force ci = .ok (st, none) ∧ st.showing_cover = true) ∨
    send_cover cfg st force ci =
      .ok ({ last_sent_cover_at := ci.sendTime, last_cover_hash := some (cfg.hash b),
             last_clock_index := none, showing_cover := true },
           some (.cover (cfg.hash b))) := by
  rcases send_cover_cases cfg st force ci with ⟨h, -, hsc⟩ | h | ⟨b2, hb2, h, -⟩
  · exact Or.inl ⟨h, hsc⟩
  · exact absurd h (send_cover_no_error cfg st force ci b hb hd hs st)
  · right
    rw [hb] at hb2
    cases hb2
    exact h

/-- Exhaustive description of the outcomes of `send_clock`: dedup skip,
exception, or successful send updating index and mode. -/
theorem send_clock_cases (st : RenderState) (force : Bool) (ki : ClockInput) :
    send_clock st force ki = .ok (st, none) ∨
    send_clock st force ki = .error st ∨
    send_clock st force ki =
      .ok ({ st with last_clock_index := some ki.clock_index, showing_cover := false },
           some (.clock ki.clock_index)) := by
  unfold send_clock
  by_cases h1 : force = false ∧ st.last_clock_index = some ki.clock_index
  · left; rw [if_pos h1]
  · rw [if_neg h1]
    by_cases h2 : ki.sendOk = false
    · right; left; rw [if_pos h2]
    · right; right; rw [if_neg h2]

/-- C9: atomicity of the cover path: if `send_cover` returns without sending
(throttle skip or fingerprint-dedup skip) or exits by exception (picture
fetch, image decode, or the send itself), then all four state variables
(`last_cover_hash`, `last_sent_cover_at`, `showing_cover`,
`last_clock_index`) are unchanged; they are mutated only by the post-send
block inside the serialization lock. -/
theorem send_cover_atomic (cfg : WatchConfig) (st : RenderState) (force : Bool)
    (ci : CoverInput) :
    (∀ s, send_cover cfg st force ci = .ok (s, none) → s = st) ∧
    (∀ s, send_cover cfg st force ci = .error s → s = st) := by
  rcases send_cover_cases cfg st force ci with ⟨h, -, -⟩ | h | ⟨b, -, h, -⟩ <;> rw [h] <;>
    constructor <;> intro s hs <;> cases hs <;> rfl

/-- C9 witness: a failing picture fetch raises with the state untouched. -/
theorem send_cover_atomic_witness :
    send_cover ⟨1, List.length⟩ initState false ⟨0, 1, .error (), true, true⟩
      = .error initState ∧ initState = initState :=
  ⟨rfl,
   (send_cover_atomic ⟨1, List.length⟩ initState false ⟨0, 1, .error (), true, true⟩).2
     initState rfl⟩

/-- C1 counterexample: a forced `send_cover` while already in Cover mode with
an unchanged fingerprint renders immediately even though only 1 of the 10
time units of the minimum cover-update interval has elapsed — the throttle
guard (line 151) is skipped entirely whenever the forced flag is set, so a
forced resync does not respect the throttle. -/
theorem send_cover_forced_ignores_throttle :
    send_cover ⟨10, List.length⟩ ⟨0, some 1, none, true⟩ true ⟨1, 2, .ok [7], true, true⟩
      = .ok (⟨2, some 1, none, true⟩, some (.cover 1)) := by rfl

/-- C1 (amended): the forced flag bypasses both the throttle and the dedup:
a forced `send_cover` whose fetch, decode and send all succeed always
renders, regardless of elapsed time and fingerprint; the throttle governs
exactly the non-forced calls made while already in Cover mode: such a call
can render only if `min_interval` is zero or at least `min_interval` has
elapsed since the last cover send. -/
theorem send_cover_throttle_spec (cfg : WatchConfig) (st : RenderState) (ci : CoverInput) :
    (∀ b, ci.fetch = .ok b → ci.decodeOk = true → ci.sendOk = true →
      send_cover cfg st true ci =
        .ok ({ last_sent_cover_at := ci.sendTime, last_cover_hash := some (cfg.hash b),
               last_clock_index := none, showing_cover := true },
             some (.cover (cfg.hash b)))) ∧
    (∀ s r, st.showing_cover = true → cfg.min_interval ≠ 0 →
      send_cover cfg st false ci = .ok (s, some r) →
      cfg.min_interval ≤ ci.now - st.last_sent_cover_at) := by
  constructor
  · intro b hb hd hs
    unfold send_cover
    rw [hb]
    rw [if_neg (by simp)]
    dsimp only
    rw [if_neg (by simp)]
    rw [if_neg (by simp [hd])]
    rw [if_neg (by simp [hs])]
  · intro s r hshow hmin hok
    by_cases hlt : ci.now - st.last_sent_cover_at < cfg.min_interval
    · exfalso
      have hskip : send_cover cfg st false ci = .ok (st, none) := by
        unfold send_cover
        rw [if_pos ⟨rfl, hshow, hmin, hlt⟩]
      rw [hskip] at hok
      cases hok
    · exact le_of_not_lt hlt

/-- C1 witness: a concrete forced render and a concrete throttled non-forced
render 20 units after the previous send with a 10-unit minimum interval. -/
theorem send_cover_throttle_spec_witness :
    send_cover ⟨10, List.length⟩ ⟨0, none, none, false⟩ true ⟨1, 2, .ok [7], true, true⟩
      = .ok (⟨2, some 1, none, true⟩, some (.cover 1)) ∧
    (10 : ℚ) ≤ 20 - 0 := by
  have hsc : send_cover ⟨10, List.length⟩ ⟨0, some 9, none, true⟩ false
      ⟨20, 21, .ok [7], true, true⟩ = .ok (⟨21, some 1, none, true⟩, some (.cover 1)) := by
    unfold send_cover
    dsimp only
    rw [if_neg (by norm_num), if_neg (by simp), if_neg (by simp), if_neg (by simp)]
    rfl
  exact ⟨(send_cover_throttle_spec ⟨10, List.length⟩ ⟨0, none, none, false⟩
      ⟨1, 2, .ok [7], true, true⟩).1 [7] rfl rfl rfl,
    (send_cover_throttle_spec ⟨10, List.length⟩ ⟨0, some 9, none, true⟩
      ⟨20, 21, .ok [7], true, true⟩).2 ⟨21, some 1, none, true⟩ (.cover 1) rfl
      (by norm_num) hsc⟩

/-- When the throttle guard does not fire and the picture fetch fails,
`send_cover` raises with the state untouched. -/
theorem send_cover_fetch_error (cfg : WatchConfig) (st : RenderState) (force : Bool)
    (ci : CoverInput) (hf : ci.fetch = .error ())
    (hng : ¬(force = false ∧ st.showing_cover = true ∧ cfg.min_interval ≠ 0 ∧
      ci.now - st.last_sent_cover_at < cfg.min_interval)) :
    send_cover cfg st force ci = .error st := by
  unfold send_cover
  rw [if_neg hng, hf]

/-- When the dedup guard does not fire and the sink accepts the frame,
`send_clock` renders and updates index and mode. -/
theorem send_clock_sends (st : RenderState) (force : Bool) (ki : ClockInput)
    (hns : ¬(force = false ∧ st.last_clock_index = some ki.clock_index))
    (hok : ki.sendOk = true) :
    send_clock st force ki =
      .ok ({ st with last_clock_index := some ki.clock_index, showing_cover := false },
           some (.clock ki.clock_index)) := by
  unfold send_clock
  rw [if_neg hns, if_neg (by simp [hok])]

/-- C2 counterexample: in the event-driven path a cover failure triggers no
clock fallback at all: a `playing` event whose picture fetch raises is merely
logged (`run_watch` line 248), the state stays untouched and nothing is
written to the sink — zero clock renders in that decision cycle, not exactly
one forced clock render. -/
theorem handle_event_cover_failure_no_fallback :
    watch_step ⟨10, List.length⟩ initState
      (.event ⟨some (some "playing"), ⟨1, 2, .error (), true, true⟩, ⟨5, true⟩⟩)
      = (initState, none) := by rfl

/-- C2 (amended): only the synchronous resync path falls back to the clock on
a cover failure, and the fallback's forced flag is `not showing_cover`, not
always true: if the state is classified playing, the picture fetch raises,
the throttle guard does not swallow the attempt, the sink accepts the clock
frame, and the mode invariant holds (`last_clock_index` is `none` while in
Cover mode), then `refresh_by_state` returns normally with exactly one clock
render; the event-driven path swallows the same failure with no render and no
propagation. -/
theorem refresh_by_state_cover_failure_fallback (cfg : WatchConfig) (st : RenderState)
    (ri : ResyncInput) :
    (∀ so, ri.state_fetch = .ok so → is_playing_state so = true →
      ri.cov.fetch = .error () → ri.clk.sendOk = true →
      (st.showing_cover = true → st.last_clock_index = none) →
      (st.showing_cover = true →
        cfg.min_interval = 0 ∨ cfg.min_interval ≤ ri.cov.now - st.last_sent_cover_at) →
      refresh_by_state cfg st false ri =
        .ok ({ st with last_clock_index := some ri.clk.clock_index, showing_cover := false },
             some (.clock ri.clk.clock_index))) ∧
    (∀ ei : EventInput, is_playing_state ei.new_state = true → ei.cov.fetch = .error () →
      handle_event cfg st ei = .ok (st, none)) := by
  constructor
  · intro so hso hplay hferr hsend hinv hthr
    unfold refresh_by_state
    rw [hso]
    dsimp only
    rw [if_pos hplay]
    have hng : ¬((false || !st.showing_cover) = false ∧ st.showing_cover = true ∧
        cfg.min_interval ≠ 0 ∧ ri.cov.now - st.last_sent_cover_at < cfg.min_interval) := by
      rintro ⟨-, hsc, hmz, hlt⟩
      rcases hthr hsc with h0 | hle
      · exact hmz h0
      · exact absurd hle (not_le.mpr hlt)
    rw [send_cover_fetch_error cfg st _ ri.cov hferr hng]
    dsimp only
    refine send_clock_sends st _ ri.clk ?_ hsend
    rintro ⟨hfo, hidx⟩
    have hsc : st.showing_cover = true := by
      cases h : st.showing_cover
      · rw [h] at hfo; cases hfo
      · rfl
    rw [hinv hsc] at hidx
    cases hidx
  · intro ei hplay hferr
    unfold handle_event
    rw [if_pos hplay]
    rcases send_cover_cases cfg st (!st.showing_cover) ei.cov with ⟨h, -, -⟩ | h | ⟨b, hb, -, -⟩
    · rw [h]
    · rw [h]
    · rw [hferr] at hb; cases hb

/-- C2 witness: a concrete resync cycle with a failing picture fetch renders
exactly one clock frame, and the same failure in the event path renders
nothing. -/
theorem refresh_by_state_cover_failure_fallback_witness :
    refresh_by_state ⟨10, List.length⟩ initState false
      ⟨.ok (some (some "playing")), ⟨1, 2, .error (), true, true⟩, ⟨5, true⟩⟩
      = .ok (⟨0, none, some 5, false⟩, some (.clock 5)) ∧
    handle_event ⟨10, List.length⟩ initState
      ⟨some (some "playing"), ⟨1, 2, .error (), true, true⟩, ⟨5, true⟩⟩
      = .ok (initState, none) :=
  ⟨(refresh_by_state_cover_failure_fallback ⟨10, List.length⟩ initState
      ⟨.ok (some (some "playing")), ⟨1, 2, .error (), true, true⟩, ⟨5, true⟩⟩).1
      (some (some "playing")) rfl rfl rfl rfl (fun h => nomatch h) (fun h => nomatch h),
   (refresh_by_state_cover_failure_fallback ⟨10, List.length⟩ initState
      ⟨.ok (some (some "playing")), ⟨1, 2, .error (), true, true⟩, ⟨5, true⟩⟩).2
      ⟨some (some "playing"), ⟨1, 2, .error (), true, true⟩, ⟨5, true⟩⟩ rfl rfl⟩

/-- C3 counterexample: the reconnect handler resyncs with `force_cover=False`
(`run_watch` line 255), not `forced=true`: in a concrete reconnect cycle
while already showing an unchanged cover within the throttle window the
resync performs no render at all, whereas the claimed `force_cover=True`
resync of the same state renders immediately — the two behaviours differ, so
the resync after a connection failure is not forced. -/
theorem reconnect_resync_not_forced :
    watch_step ⟨10, List.length⟩ ⟨0, some 1, none, true⟩
      (.reconnect ⟨.ok (some (some "playing")), ⟨1, 2, .ok [7], true, true⟩, ⟨5, true⟩⟩)
      = (⟨0, some 1, none, true⟩, none) ∧
    refresh_by_state ⟨10, List.length⟩ ⟨0, some 1, none, true⟩ true
      ⟨.ok (some (some "playing")), ⟨1, 2, .ok [7], true, true⟩, ⟨5, true⟩⟩
      = .ok (⟨2, some 1, none, true⟩, some (.cover 1)) := by
  have hskip : send_cover ⟨10, List.length⟩ ⟨0, some 1, none, true⟩ (false || !true)
      ⟨1, 2, .ok [7], true, true⟩ = .ok (⟨0, some 1, none, true⟩, none) := by
    unfold send_cover
    rw [if_pos ⟨rfl, rfl, by norm_num, by norm_num⟩]
  constructor
  · unfold watch_step refresh_by_state
    dsimp only
    rw [if_pos (by rfl : is_playing_state (some (some "playing")) = true), hskip]
    rfl
  · unfold refresh_by_state
    dsimp only
    rw [if_pos (by rfl : is_playing_state (some (some "playing")) = true)]
    have hsend : send_cover ⟨10, List.length⟩ ⟨0, some 1, none, true⟩ (true || !true)
        ⟨1, 2, .ok [7], true, true⟩ = .ok (⟨2, some 1, none, true⟩, some (.cover 1)) := by
      unfold send_cover
      rw [if_neg (by simp)]
      dsimp only
      rw [if_neg (by simp), if_neg (by simp), if_neg (by simp)]
      rfl
    rw [hsend]

/-- C3 (amended): after any connection failure the orchestrator performs its
single synchronous state fetch before sleeping the reconnect delay and before
re-establishing the subscription, with `force_cover=False` (dedup and
throttle still apply); the resync still converges to ground truth: a
successful fetch classifying not-playing leaves the orchestrator in Clock
mode, and one classifying playing whose cover pipeline succeeds leaves it in
Cover mode. -/
theorem reconnect_resync_converges (cfg : WatchConfig) (st : RenderState) (ri : ResyncInput) :
    (∀ so, ri.state_fetch = .ok so → is_playing_state so = false → ri.clk.sendOk = true →
      (watch_step cfg st (.reconnect ri)).1.showing_cover = false) ∧
    (∀ so b, ri.state_fetch = .ok so → is_playing_state so = true →
      ri.cov.fetch = .ok b → ri.cov.decodeOk = true → ri.cov.sendOk = true →
      (watch_step cfg st (.reconnect ri)).1.showing_cover = true) := by
  constructor
  · intro so hso hnp hsend
    unfold watch_step refresh_by_state
    dsimp only
    rw [hso]
    dsimp only
    rw [if_neg (by simp [hnp])]
    unfold send_clock
    by_cases h1 : st.showing_cover = false ∧ st.last_clock_index = some ri.clk.clock_index
    · rw [if_pos h1]
      exact h1.1
    · rw [if_neg h1, if_neg (by simp [hsend])]
      rfl
  · intro so b hso hplay hb hd hsok
    unfold watch_step refresh_by_state
    dsimp only
    rw [hso]
    dsimp only
    rw [if_pos hplay]
    rcases send_cover_pipeline_ok cfg st (false || !st.showing_cover) ri.cov b hb hd hsok
      with ⟨h, hsc⟩ | h <;> rw [h]
    · exact hsc
    · rfl

/-- C3 witness: a concrete not-playing resync leaves Clock mode and a
concrete playing resync with a fresh cover leaves Cover mode. -/
theorem reconnect_resync_converges_witness :
    (watch_step ⟨10, List.length⟩ ⟨0, some 1, none, true⟩
      (.reconnect ⟨.ok (some (some "idle")), ⟨1, 2, .ok [7], true, true⟩,
        ⟨5, true⟩⟩)).1.showing_cover = false ∧
    (watch_step ⟨10, List.length⟩ initState
      (.reconnect ⟨.ok (some (some "playing")), ⟨1, 2, .ok [7], true, true⟩,
        ⟨5, true⟩⟩)).1.showing_cover = true :=
  ⟨(reconnect_resync_converges ⟨10, List.length⟩ ⟨0, some 1, none, true⟩
      ⟨.ok (some (some "idle")), ⟨1, 2, .ok [7], true, true⟩, ⟨5, true⟩⟩).1
      (some (some "idle")) rfl rfl rfl,
   (reconnect_resync_converges ⟨10, List.length⟩ initState
      ⟨.ok (some (some "playing")), ⟨1, 2, .ok [7], true, true⟩, ⟨5, true⟩⟩).2
      (some (some "playing")) [7] rfl rfl rfl rfl rfl⟩

/-- Coherence of the mode with the clock dedup key: while the cover is
showing, the stored clock frame index is cleared. -/
def clockIndexClear (st : RenderState) : Prop :=
  st.showing_cover = true → st.last_clock_index = none

/-- One completed render operation preserves `clockIndexClear`. -/
theorem apply_render_op_clockIndexClear (cfg : WatchConfig) (st : RenderState)
    (op : RenderOp) (h : clockIndexClear st) :
    clockIndexClear (apply_render_op cfg st op) := by
  cases op with
  | opCover force ci =>
    unfold apply_render_op
    dsimp only
    rcases send_cover_cases cfg st force ci with ⟨hc, -, -⟩ | hc | ⟨b, -, hc, -⟩ <;> rw [hc]
    · exact h
    · exact h
    · intro _
      rfl
  | opClock force ki =>
    unfold apply_render_op
    dsimp only
    rcases send_clock_cases st force ki with hc | hc | hc <;> rw [hc]
    · exact h
    · exact h
    · intro hs
      simp at hs

/-- Any sequence of completed render operations preserves `clockIndexClear`. -/
theorem apply_render_ops_clockIndexClear (cfg : WatchConfig) (ops : List RenderOp) :
    ∀ st, clockIndexClear st → clockIndexClear (apply_render_ops cfg st ops) := by
  induction ops with
  | nil => exact fun st h => h
  | cons op rest ih =>
    exact fun st h => ih _ (apply_render_op_clockIndexClear cfg st op h)

/-- C6: in every orchestrator state reachable from the initial state by any
interleaving of completed `send_cover`/`send_clock` calls, `last_clock_index`
is `none` whenever `showing_cover` is true — a successful cover send sets the
mode and clears the index inside the same locked block, and a clock send
clears the mode; moreover a clock operation never changes the cover
fingerprint or the last-cover-send timestamp. -/
theorem render_state_mode_invariant (cfg : WatchConfig) :
    (∀ ops, (apply_render_ops cfg initState ops).showing_cover = true →
      (apply_render_ops cfg initState ops).last_clock_index = none) ∧
    (∀ st force ki,
      (apply_render_op cfg st (.opClock force ki)).last_cover_hash = st.last_cover_hash ∧
      (apply_render_op cfg st (.opClock force ki)).last_sent_cover_at
        = st.last_sent_cover_at) := by
  constructor
  · intro ops
    exact apply_render_ops_clockIndexClear cfg ops initState (fun _ => rfl)
  · intro st force ki
    unfold apply_render_op
    dsimp only
    rcases send_clock_cases st force ki with hc | hc | hc <;> rw [hc] <;> exact ⟨rfl, rfl⟩

/-- C6 witness: after a concrete successful cover send the clock index is
cleared. -/
theorem render_state_mode_invariant_witness :
    (apply_render_ops ⟨10, List.length⟩ initState
      [.opCover true ⟨1, 2, .ok [7], true, true⟩]).last_clock_index = none :=
  (render_state_mode_invariant ⟨10, List.length⟩).1
    [.opCover true ⟨1, 2, .ok [7], true, true⟩] (by rfl)

/-- C7: the connection setup fails (raising after closing the socket) iff the
first server message is not the auth-required handshake, or the auth reply is
not auth-success, or the subscribe reply is not a `result` message bearing
the same correlation id (1 for a fresh client) with the success flag set;
when none of these holds the client enters streaming without error and
without closing the socket. -/
theorem connect_and_subscribe_spec (first authReply subReply : WsServerMsg) :
    ((connect_and_subscribe first authReply subReply).result = .error () ↔
      (first.msgType ≠ "auth_required" ∨ authReply.msgType ≠ "auth_ok" ∨
        ¬(subReply.msgType = "result" ∧ subReply.msgId = some 1 ∧
          subReply.msgSuccess = true))) ∧
    ((connect_and_subscribe first authReply subReply).result = .error () →
      (connect_and_subscribe first authReply subReply).closed = true) ∧
    (first.msgType = "auth_required" → authReply.msgType = "auth_ok" →
      subReply.msgType = "result" → subReply.msgId = some 1 → subReply.msgSuccess = true →
      connect_and_subscribe first authReply subReply
        = { closed := false, result := .ok 1 }) := by
  unfold connect_and_subscribe
  dsimp only
  split_ifs with h1 h2 h3
  · exact ⟨iff_of_true rfl (Or.inl h1), fun _ => rfl, fun hf => absurd hf h1⟩
  · exact ⟨iff_of_true rfl (Or.inr (Or.inl h2)), fun _ => rfl, fun _ ha => absurd ha h2⟩
  · have hns : ¬(subReply.msgType = "result" ∧ subReply.msgId = some 1 ∧
        subReply.msgSuccess = true) := by
      rintro ⟨ht, hid, hsu⟩
      rcases h3 with h | h | h
      · exact h ht
      · exact h hid
      · rw [hsu] at h
        cases h
    exact ⟨iff_of_true rfl (Or.inr (Or.inr hns)), fun _ => rfl,
      fun _ _ ht hid hsu => absurd ⟨ht, hid, hsu⟩ hns⟩
  · push_neg at h3
    obtain ⟨ht, hid, hsu⟩ := h3
    have hsu1 : subReply.msgSuccess = true := by
      cases hcase : subReply.msgSuccess
      · exact absurd hcase hsu
      · rfl
    refine ⟨iff_of_false (by simp) ?_, fun hf => ?_, fun _ _ _ _ _ => rfl⟩
    · rintro (h | h | h)
      · exact h1 h
      · exact h2 h
      · exact h ⟨ht, hid, hsu1⟩
    · simp at hf

/-- C7 witness: a good handshake enters streaming; a bad first message fails
with the socket closed. -/
theorem connect_and_subscribe_spec_witness :
    connect_and_subscribe ⟨"auth_required", none, false⟩ ⟨"auth_ok", none, false⟩
      ⟨"result", some 1, true⟩ = { closed := false, result := .ok 1 } ∧
    (connect_and_subscribe ⟨"hello", none, false⟩ ⟨"auth_ok", none, false⟩
      ⟨"result", some 1, true⟩).result = .error () ∧
    (connect_and_subscribe ⟨"hello", none, false⟩ ⟨"auth_ok", none, false⟩
      ⟨"result", some 1, true⟩).closed = true :=
  ⟨(connect_and_subscribe_spec ⟨"auth_required", none, false⟩ ⟨"auth_ok", none, false⟩
      ⟨"result", some 1, true⟩).2.2 rfl rfl rfl rfl rfl,
   (connect_and_subscribe_spec ⟨"hello", none, false⟩ ⟨"auth_ok", none, false⟩
      ⟨"result", some 1, true⟩).1.mpr (Or.inl (by decide)),
   (connect_and_subscribe_spec ⟨"hello", none, false⟩ ⟨"auth_ok", none, false⟩
      ⟨"result", some 1, true⟩).2.1
     ((connect_and_subscribe_spec ⟨"hello", none, false⟩ ⟨"auth_ok", none, false⟩
      ⟨"result", some 1, true⟩).1.mpr (Or.inl (by decide)))⟩

/-- Event payloads forwarded to `on_event` in a supervisor trace, in order. -/
def forwardedEvents (tr : List SupAction) : List Nat :=
  tr.filterMap (fun a => match a with | .forward e => some e | _ => none)

/-- Number of reconnect sleeps in a supervisor trace. -/
def sleepCount (tr : List SupAction) : Nat :=
  tr.countP (fun a => match a with | .sleep _ => true | _ => false)

/-- Forwarded events distribute over trace concatenation. -/
theorem forwardedEvents_append (t1 t2 : List SupAction) :
    forwardedEvents (t1 ++ t2) = forwardedEvents t1 ++ forwardedEvents t2 := by
  simp [forwardedEvents, List.filterMap_append]

/-- A block of forwards contributes exactly its payloads. -/
theorem forwardedEvents_map_forward (l : List Nat) :
    forwardedEvents (l.map SupAction.forward) = l := by
  induction l with
  | nil => rfl
  | cons x xs ih => simpa [forwardedEvents, List.filterMap_cons] using ih

/-- Sleep count distributes over trace concatenation. -/
theorem sleepCount_append (t1 t2 : List SupAction) :
    sleepCount (t1 ++ t2) = sleepCount t1 + sleepCount t2 := by
  simp [sleepCount, List.countP_append]

/-- A block of forwards contains no sleeps. -/
theorem sleepCount_map_forward (l : List Nat) :
    sleepCount (l.map SupAction.forward) = 0 := by
  induction l with
  | nil => rfl
  | cons x xs ih => simp [sleepCount, List.countP_cons] at ih ⊢

/-- C8: the reconnect supervisor loops forever: over any finite sequence of
connection epochs none of which is cancelled, the trace re-raises no
cancellation (no exception terminates the loop), forwards every yielded event
to the handler in order, and sleeps exactly once per failed epoch, each sleep
being the reconnect delay floor-clamped to 1/2 second; when an epoch ends in
cancellation, the trace is exactly the processing of the preceding epochs,
the cancelled epoch's forwards, and an immediate re-raise — no final sleep,
no further iteration. -/
theorem watch_state_changes_forever_spec (d : ℚ) :
    (∀ eps : List Epoch, (∀ ep ∈ eps, ep.finish ≠ EpochEnd.cancelled) →
      SupAction.raiseCancelled ∉ watch_state_changes_forever d eps ∧
      forwardedEvents (watch_state_changes_forever d eps)
        = eps.flatMap Epoch.events ∧
      sleepCount (watch_state_changes_forever d eps)
        = eps.countP (fun ep => ep.finish == EpochEnd.failure) ∧
      (∀ q, SupAction.sleep q ∈ watch_state_changes_forever d eps → q = max (1/2) d)) ∧
    (∀ pre ep rest, (∀ e ∈ pre, e.finish ≠ EpochEnd.cancelled) →
      ep.finish = EpochEnd.cancelled →
      watch_state_changes_forever d (pre ++ ep :: rest)
        = watch_state_changes_forever d pre
            ++ ep.events.map SupAction.forward ++ [SupAction.raiseCancelled]) := by
  constructor
  · intro eps
    induction eps with
    | nil =>
      intro _
      refine ⟨by simp [watch_state_changes_forever], rfl, rfl, ?_⟩
      intro q hq
      simp [watch_state_changes_forever] at hq
    | cons ep rest ih =>
      intro hnc
      have hep : ep.finish ≠ EpochEnd.cancelled := hnc ep (List.mem_cons_self ep rest)
      obtain ⟨ih1, ih2, ih3, ih4⟩ := ih (fun e he => hnc e (List.mem_cons_of_mem ep he))
      cases hfin : ep.finish with
      | exhausted =>
        unfold watch_state_changes_forever
        rw [hfin]
        dsimp only
        refine ⟨?_, ?_, ?_, ?_⟩
        · intro hmem
          rcases List.mem_append.mp hmem with h | h
          · rcases List.mem_map.mp h with ⟨e, -, he⟩
            cases he
          · exact ih1 h
        · rw [forwardedEvents_append, forwardedEvents_map_forward, ih2]
          simp [List.flatMap_cons]
        · rw [sleepCount_append, sleepCount_map_forward, ih3]
          simp [List.countP_cons, hfin]
        · intro q hq
          rcases List.mem_append.mp hq with h | h
          · rcases List.mem_map.mp h with ⟨e, -, he⟩
            cases he
          · exact ih4 q h
      | failure =>
        unfold watch_state_changes_forever
        rw [hfin]
        dsimp only
        refine ⟨?_, ?_, ?_, ?_⟩
        · intro hmem
          rcases List.mem_append.mp hmem with h | h
          · rcases List.mem_map.mp h with ⟨e, -, he⟩
            cases he
          · rcases List.mem_cons.mp h with h | h
            · cases h
            · exact ih1 h
        · rw [forwardedEvents_append, forwardedEvents_map_forward]
          have : forwardedEvents (SupAction.sleep (watch_delay d)
              :: watch_state_changes_forever d rest)
              = forwardedEvents (watch_state_changes_forever d rest) := by
            simp [forwardedEvents, List.filterMap_cons]
          rw [this, ih2]
          simp [List.flatMap_cons]
        · rw [sleepCount_append, sleepCount_map_forward]
          have : sleepCount (SupAction.sleep (watch_delay d)
              :: watch_state_changes_forever d rest)
              = sleepCount (watch_state_changes_forever d rest) + 1 := by
            simp [sleepCount, List.countP_cons]
          rw [this, ih3]
          simp [List.countP_cons, hfin]
        · intro q hq
          rcases List.mem_append.mp hq with h | h
          · rcases List.mem_map.mp h with ⟨e, -, he⟩
            cases he
          · rcases List.mem_cons.mp h with h | h
            · cases h
              rfl
            · exact ih4 q h
      | cancelled => exact absurd hfin hep
  · intro pre
    induction pre with
    | nil =>
      intro ep rest _ hc
      show watch_state_changes_forever d (ep :: rest) = _
      unfold watch_state_changes_forever
      rw [hc]
      dsimp only
      rw [List.nil_append]
    | cons e pre ih =>
      intro ep rest hnc hc
      have he : e.finish ≠ EpochEnd.cancelled := hnc e (List.mem_cons_self e pre)
      have heq := ih ep rest (fun x hx => hnc x (List.mem_cons_of_mem e hx)) hc
      cases hfin : e.finish with
      | exhausted =>
        show watch_state_changes_forever d (e :: (pre ++ ep :: rest)) = _
        conv_lhs => unfold watch_state_changes_forever
        rw [hfin]
        dsimp only
        rw [heq]
        conv_rhs => unfold watch_state_changes_forever
        rw [hfin]
        dsimp only
        simp [List.append_assoc]
      | failure =>
        show watch_state_changes_forever d (e :: (pre ++ ep :: rest)) = _
        conv_lhs => unfold watch_state_changes_forever
        rw [hfin]
        dsimp only
        rw [heq]
        conv_rhs => unfold watch_state_changes_forever
        rw [hfin]
        dsimp only
        simp [List.append_assoc]
      | cancelled => exact absurd hfin he

/-- C8 witness: a concrete failed epoch sleeps the clamped delay and keeps
looping, and a concrete cancelled epoch re-raises immediately. -/
theorem watch_state_changes_forever_spec_witness :
    SupAction.raiseCancelled ∉ watch_state_changes_forever 2 [⟨[1, 2], .failure⟩] ∧
    watch_state_changes_forever 2 ([⟨[1], .failure⟩] ++ ⟨[2], .cancelled⟩ :: [⟨[9], .failure⟩])
      = watch_state_changes_forever 2 [⟨[1], .failure⟩]
          ++ [2].map SupAction.forward ++ [SupAction.raiseCancelled] :=
  ⟨((watch_state_changes_forever_spec 2).1 [⟨[1, 2], .failure⟩]
      (by intro ep hep; rw [List.mem_singleton.mp hep]; exact fun h => nomatch h)).1,
   (watch_state_changes_forever_spec 2).2 [⟨[1], .failure⟩] ⟨[2], .cancelled⟩ [⟨[9], .failure⟩]
      (by intro ep hep; rw [List.mem_singleton.mp hep]; exact fun h => nomatch h) rfl⟩

/-- Compatibility of two consecutive renders: they must not be cover renders
with the same fingerprint. -/
def ndup (a b : Render) : Prop := ∀ h, a = Render.cover h → b ≠ Render.cover h

/-- The last render of the trace after an optional new emission. -/
def lastRender (last : Option Render) : Option Render → Option Render
  | some r => some r
  | none => last

/-- Link between the orchestrator state and the last render of the trace:
while in Cover mode the last render is the cover whose fingerprint is stored,
and while in Clock mode the last render is not a cover. -/
def traceInv (st : RenderState) (last : Option Render) : Prop :=
  (st.showing_cover = true →
    ∃ h, st.last_cover_hash = some h ∧ last = some (Render.cover h)) ∧
  (st.showing_cover = false → ∀ h, last ≠ some (Render.cover h))

/-- Soundness of one state/emission pair against the previous trace: the link
is maintained and the emission never repeats the directly preceding cover
fingerprint. -/
def stepOk (last : Option Render) (p : RenderState × Option Render) : Prop :=
  traceInv p.1 (lastRender last p.2) ∧
  ∀ l r, last = some l → p.2 = some r → ndup l r

/-- A completed `send_clock` call is a sound step from any linked state. -/
theorem send_clock_stepOk (st : RenderState) (force : Bool) (ki : ClockInput)
    (last : Option Render) (hInv : traceInv st last) :
    stepOk last (absorb (send_clock st force ki)) := by
  rcases send_clock_cases st force ki with hc | hc | hc <;> rw [hc] <;> dsimp only [absorb]
  · exact ⟨hInv, fun l r _ hr => nomatch hr⟩
  · exact ⟨hInv, fun l r _ hr => nomatch hr⟩
  · refine ⟨⟨fun hs => by simp at hs, fun _ h heq => ?_⟩, fun l r hl hr => ?_⟩
    · injection heq with h2
      cases h2
    · cases hr
      intro h2 _ heq
      cases heq

/-- A successful cover emission is a sound step provided the fingerprint
differs from the stored one whenever the cover was already showing. -/
theorem cover_emit_stepOk (t : ℚ) (hsh : Nat) (st : RenderState) (last : Option Render)
    (hInv : traceInv st last)
    (hded : st.showing_cover = true → st.last_cover_hash ≠ some hsh) :
    stepOk last
      (({ last_sent_cover_at := t, last_cover_hash := some hsh,
          last_clock_index := none, showing_cover := true } : RenderState),
       some (Render.cover hsh)) := by
  refine ⟨⟨fun _ => ⟨hsh, rfl, rfl⟩, fun hs => by simp at hs⟩, fun l r hl hr => ?_⟩
  cases hr
  intro h hlcov heq
  injection heq with h2
  subst h2
  cases hsc : st.showing_cover
  · exact hInv.2 hsc hsh (by rw [hl, hlcov])
  · obtain ⟨h0, hh0, hlast⟩ := hInv.1 hsc
    rw [hl] at hlast
    injection hlast with h1
    rw [hlcov] at h1
    injection h1 with h2
    exact hded hsc (by rw [hh0, h2])

/-- A completed `send_cover` call with the orchestrator's forced-flag
discipline (`force = not showing_cover`) is a sound step. -/
theorem send_cover_stepOk (cfg : WatchConfig) (st : RenderState) (ci : CoverInput)
    (last : Option Render) (hInv : traceInv st last) :
    stepOk last (absorb (send_cover cfg st (!st.showing_cover) ci)) := by
  rcases send_cover_cases cfg st (!st.showing_cover) ci with ⟨hc, -, -⟩ | hc | ⟨b, -, hc, hded⟩
    <;> rw [hc]
  · exact ⟨hInv, fun l r _ hr => nomatch hr⟩
  · exact ⟨hInv, fun l r _ hr => nomatch hr⟩
  · refine cover_emit_stepOk ci.sendTime (cfg.hash b) st last hInv (fun hsc => ?_)
    exact hded (by rw [hsc]; rfl) hsc

/-- A completed `refresh_by_state` call whose effective forced flag is
`not showing_cover` is a sound step. -/
theorem refresh_stepOk (cfg : WatchConfig) (st : RenderState) (fc : Bool)
    (ri : ResyncInput) (last : Option Render) (hInv : traceInv st last)
    (hfc : (fc || !st.showing_cover) = !st.showing_cover) :
    stepOk last (absorb (refresh_by_state cfg st fc ri)) := by
  unfold refresh_by_state
  rcases hsf : ri.state_fetch with u | so <;> dsimp only
  · exact send_clock_stepOk st false ri.clk last hInv
  · by_cases hp : is_playing_state so = true
    · rw [if_pos hp, hfc]
      rcases send_cover_cases cfg st (!st.showing_cover) ri.cov
        with ⟨hc, -, -⟩ | hc | ⟨b, -, hc, hded⟩ <;> rw [hc] <;> dsimp only
      · exact ⟨hInv, fun l r _ hr => nomatch hr⟩
      · exact send_clock_stepOk st (!st.showing_cover) ri.clk last hInv
      · refine cover_emit_stepOk ri.cov.sendTime (cfg.hash b) st last hInv (fun hsc => ?_)
        exact hded (by rw [hsc]; rfl) hsc
    · rw [if_neg hp]
      exact send_clock_stepOk st st.showing_cover ri.clk last hInv

/-- One event-loop iteration is a sound step. -/
theorem handle_event_stepOk (cfg : WatchConfig) (st : RenderState) (ei : EventInput)
    (last : Option Render) (hInv : traceInv st last) :
    stepOk last (absorb (handle_event cfg st ei)) := by
  unfold handle_event
  by_cases hp : is_playing_state ei.new_state = true
  · rw [if_pos hp]
    rcases send_cover_cases cfg st (!st.showing_cover) ei.cov
      with ⟨hc, -, -⟩ | hc | ⟨b, -, hc, hded⟩ <;> rw [hc] <;> dsimp only
    · exact ⟨hInv, fun l r _ hr => nomatch hr⟩
    · exact ⟨hInv, fun l r _ hr => nomatch hr⟩
    · refine cover_emit_stepOk ei.cov.sendTime (cfg.hash b) st last hInv (fun hsc => ?_)
      exact hded (by rw [hsc]; rfl) hsc
  · rw [if_neg hp]
    exact send_clock_stepOk st st.showing_cover ei.clk last hInv

/-- One idle clock tick is a sound step. -/
theorem clock_tick_stepOk (st : RenderState) (ki : ClockInput) (last : Option Render)
    (hInv : traceInv st last) :
    stepOk last (absorb (clock_tick st ki)) := by
  unfold clock_tick
  by_cases hsc : st.showing_cover = true
  · rw [if_pos hsc]
    exact ⟨hInv, fun l r _ hr => nomatch hr⟩
  · rw [if_neg hsc]
    exact send_clock_stepOk st false ki last hInv

/-- Every decision cycle of the orchestrator is a sound step. -/
theorem watch_step_stepOk (cfg : WatchConfig) (st : RenderState) (s : WatchStep)
    (last : Option Render) (hInv : traceInv st last) :
    stepOk last (watch_step cfg st s) := by
  cases s with
  | event ei => exact handle_event_stepOk cfg st ei last hInv
  | tick ki => exact clock_tick_stepOk st ki last hInv
  | reconnect ri =>
    exact refresh_stepOk cfg st false ri last hInv (by cases st.showing_cover <;> rfl)

/-- The render trace produced from any linked state never repeats the
directly preceding cover fingerprint anywhere. -/
theorem run_watch_from_chain (cfg : WatchConfig) :
    ∀ (steps : List WatchStep) (st : RenderState) (last : Option Render),
      traceInv st last →
      List.Chain' ndup (last.toList ++ (run_watch_from cfg st steps).2) := by
  intro steps
  induction steps with
  | nil =>
    intro st last h
    cases last <;> simp [run_watch_from]
  | cons s rest ih =>
    intro st last h
    have hs := watch_step_stepOk cfg st s last h
    have hInv1 := hs.1
    rcases ho : (watch_step cfg st s).2 with _ | r
    · rw [ho] at hInv1
      have h2 := ih (watch_step cfg st s).1 last hInv1
      simpa [run_watch_from, ho] using h2
    · rw [ho] at hInv1
      have h2 := ih (watch_step cfg st s).1 (some r) hInv1
      cases last with
      | none => simpa [run_watch_from, ho] using h2
      | some l =>
        have hnd : ndup l r := hs.2 l r rfl ho
        simp only [run_watch_from, ho, Option.toList, List.singleton_append,
          List.cons_append, List.nil_append] at h2 ⊢
        exact List.chain'_cons.mpr ⟨hnd, h2⟩

/-- C4: for every sequence of incoming push events, idle clock ticks and
reconnect resyncs, the sequence of renders `run_watch` sends to the Display
Output Sink never contains two consecutive cover renders with the same
fingerprint — a non-cover render must lie between them; and locally,
`send_cover` performs no send when the orchestrator is already in Cover mode,
the fetched fingerprint equals the last-sent one and the forced flag is not
set. -/
theorem run_watch_no_duplicate_adjacent_covers (cfg : WatchConfig)
    (startup : ResyncInput) (steps : List WatchStep) :
    List.Chain' ndup (run_watch cfg startup steps).2 ∧
    (∀ st ci b, st.showing_cover = true → ci.fetch = .ok b →
      st.last_cover_hash = some (cfg.hash b) →
      send_cover cfg st false ci = .ok (st, none)) := by
  constructor
  · unfold run_watch
    have hInit : traceInv initState none :=
      ⟨(fun hh => nomatch hh), (fun _ _ hh => nomatch hh)⟩
    have h0 := refresh_stepOk cfg initState true startup none hInit (by rfl)
    rcases hr : refresh_by_state cfg initState true startup with s | p
    · simp
    · rw [hr] at h0
      rcases p with ⟨s1, o⟩
      have hInv1 := h0.1
      cases o with
      | none =>
        have h2 := run_watch_from_chain cfg steps s1 none hInv1
        simpa using h2
      | some r =>
        have h2 := run_watch_from_chain cfg steps s1 (some r) hInv1
        simpa using h2
  · intro st ci b hsc hb hh
    unfold send_cover
    by_cases h1 : (false = false ∧ st.showing_cover = true ∧ cfg.min_interval ≠ 0 ∧
        ci.now - st.last_sent_cover_at < cfg.min_interval)
    · rw [if_pos h1]
    · rw [if_neg h1, hb]
      dsimp only
      rw [if_pos ⟨rfl, hsc, hh⟩]

/-- C4 witness: a concrete non-forced `send_cover` in Cover mode with an
unchanged fingerprint performs no send. -/
theorem run_watch_no_duplicate_adjacent_covers_witness :
    send_cover ⟨10, List.length⟩ ⟨0, some 1, none, true⟩ false ⟨1, 2, .ok [7], true, true⟩
      = .ok (⟨0, some 1, none, true⟩, none) :=
  (run_watch_no_duplicate_adjacent_covers ⟨10, List.length⟩
      ⟨.ok none, ⟨0, 0, .error (), true, true⟩, ⟨0, true⟩⟩ []).2
    ⟨0, some 1, none, true⟩ ⟨1, 2, .ok [7], true, true⟩ [7] rfl rfl rfl

end BkLight
